import Mathlib

/-!
Verification development for the Bohr repository (src/src-tauri).

The repository's own code is the migration catalog `get_migrations`
(src/src-tauri/src/database.rs) and the startup entry point `run`
(src/src-tauri/src/main.rs), which hands the catalog to an external
migration runner (`tauri_plugin_sql`, via `add_migrations("sqlite:app.db", …)`).

This file shallowly embeds:
* the catalog, statement by statement, from database.rs, with each SQL
  operation represented as an ordered list of typed statement descriptors
  over an explicit relational store (the semantics of each descriptor
  follows documented SQLite behaviour: positional `INSERT … SELECT *`,
  `ALTER TABLE … ADD COLUMN` appending at the end, IF NOT EXISTS, primary
  key / UNIQUE / NOT NULL / CHECK enforcement on insert);
* the migration runner, which is not part of this repository's sources
  (only its caller `run` is), modelled from the spec.
-/

/-- A stored value: SQLite NULL, INTEGER or TEXT (the catalog never stores
REAL or BLOB values). -/
inductive Val where
  | null
  | int (n : Int)
  | text (s : String)
deriving DecidableEq

/-- A column default: absent, a constant, or the non-constant default
`(datetime('now'))`; the latter is evaluated against an explicit clock
string `now` threaded through the interpreter. -/
inductive Dflt where
  | none
  | val (v : Val)
  | now
deriving DecidableEq

/-- A column declaration: name, declared type, NOT NULL flag, default. -/
structure Col where
  name : String
  ty : String
  notnull : Bool
  dflt : Dflt
deriving DecidableEq

/-- A FOREIGN KEY … REFERENCES declaration (recorded from the source;
not enforced by the interpreter, matching SQLite's default
`foreign_keys = OFF` semantics, which no claim depends on). -/
structure FK where
  col : String
  refTable : String
  refCol : String
deriving DecidableEq

/-- A table schema: ordered columns, primary-key column list, single-column
UNIQUE constraints, CHECK (col = const) constraints, foreign keys. -/
structure TableDef where
  cols : List Col
  pk : List String
  uniques : List String
  checks : List (String × Val)
  fks : List FK
deriving DecidableEq

/-- A table: its schema and its rows, each row positional over the schema
columns. -/
structure Table where
  schema : TableDef
  rows : List (List Val)
deriving DecidableEq

/-- A database: association list from table name to table, in creation
order. -/
abbrev Db := List (String × Table)

def dbGet (db : Db) (name : String) : Option Table :=
  match db.find? (fun p => p.1 == name) with
  | some p => some p.2
  | Option.none => Option.none

def dbSet (db : Db) (name : String) (t : Table) : Db :=
  db.map (fun p => if p.1 == name then (name, t) else p)

def dbRemove (db : Db) (name : String) : Db :=
  db.filter (fun p => !(p.1 == name))

def dbRename (db : Db) (a b : String) : Db :=
  db.map (fun p => if p.1 == a then (b, p.2) else p)

/-- Index of a column name in a schema's column list. -/
def colIdx (cols : List Col) (name : String) : Option Nat :=
  cols.findIdx? (fun c => c.name == name)

/-- Value of a named column in a positional row (NULL when absent). -/
def getVal (cols : List Col) (row : List Val) (name : String) : Val :=
  match colIdx cols name with
  | some i => row.getD i Val.null
  | Option.none => Val.null

/-- Evaluate a column default under the clock `now`. -/
def defaultVal (now : String) : Dflt → Val
  | Dflt.none => Val.null
  | Dflt.val v => v
  | Dflt.now => Val.text now

/-- An expression on the right-hand side of an UPDATE assignment: a constant
or a column of the old row. -/
inductive Expr where
  | val (v : Val)
  | col (name : String)
deriving DecidableEq

def evalExpr (cols : List Col) (row : List Val) : Expr → Val
  | Expr.val v => v
  | Expr.col n => getVal cols row n

/-- One SQL statement of the catalog, as a typed descriptor.
`createTable` and `createIndex` carry IF NOT EXISTS semantics (every
occurrence in the source uses IF NOT EXISTS); `insertSelectAll` is
`INSERT INTO dst SELECT * FROM src` (positional column matching);
`update` is `UPDATE table SET … WHERE whereIsNull IS NULL`. -/
inductive Stmt where
  | createTable (name : String) (t : TableDef)
  | insert (table : String) (colNames : List String) (valRows : List (List Val))
  | insertSelectAll (dst : String) (src : String)
  | update (table : String) (sets : List (String × Expr)) (whereIsNull : String)
  | dropTable (name : String)
  | renameTable (a : String) (b : String)
  | alterAddColumn (table : String) (c : Col)
  | createIndex (idx : String) (table : String) (cols : List String)
deriving DecidableEq

/-- Build a full positional row from an INSERT column list and value list:
named columns take the supplied value, the rest take their default. -/
def buildRow (now : String) (cols : List Col) (given : List String)
    (vals : List Val) : List Val :=
  cols.map (fun c =>
    match given.findIdx? (fun g => g == c.name) with
    | some i => vals.getD i Val.null
    | Option.none => defaultVal now c.dflt)

/-- Constraint check for one candidate row against the rows already present:
NOT NULL, CHECK (col = const), primary-key uniqueness, single-column
UNIQUE uniqueness. -/
def checkRow (s : TableDef) (others : List (List Val)) (row : List Val) : Bool :=
  s.cols.all (fun c => !c.notnull || !(getVal s.cols row c.name == Val.null)) &&
  s.checks.all (fun p => getVal s.cols row p.1 == p.2) &&
  (s.pk.isEmpty ||
    others.all (fun r =>
      !(s.pk.map (getVal s.cols r) == s.pk.map (getVal s.cols row)))) &&
  s.uniques.all (fun u =>
    others.all (fun r => !(getVal s.cols r u == getVal s.cols row u)))

/-- Insert rows one at a time, each checked against all earlier rows
(`Option.none` = constraint violation aborts the statement). -/
def insertRows (s : TableDef) : List (List Val) → List (List Val) →
    Option (List (List Val))
  | acc, [] => some acc
  | acc, r :: rs =>
    if checkRow s acc r then insertRows s (acc ++ [r]) rs else Option.none

/-- Apply one UPDATE assignment pass to a row: each column either takes its
assignment (evaluated against the old row) or keeps its old value. -/
def applySets (cols : List Col) (sets : List (String × Expr))
    (row : List Val) : List Val :=
  (List.range cols.length).map (fun i =>
    match cols.getD i (Col.mk "" "" false Dflt.none) with
    | c =>
      match sets.find? (fun p => p.1 == c.name) with
      | some p => evalExpr cols row p.2
      | Option.none => row.getD i Val.null)

/-- Execute one statement (`Option.none` = the statement errors). -/
def execStmt (now : String) (db : Db) : Stmt → Option Db
  | Stmt.createTable name t =>
    match dbGet db name with
    | some _ => some db
    | Option.none => some (db ++ [(name, Table.mk t [])])
  | Stmt.insert tname colNames valRows =>
    match dbGet db tname with
    | Option.none => Option.none
    | some t =>
      match insertRows t.schema t.rows
          (valRows.map (buildRow now t.schema.cols colNames)) with
      | some rows => some (dbSet db tname (Table.mk t.schema rows))
      | Option.none => Option.none
  | Stmt.insertSelectAll dst src =>
    match dbGet db dst, dbGet db src with
    | some td, some ts =>
      if ts.schema.cols.length == td.schema.cols.length then
        match insertRows td.schema td.rows ts.rows with
        | some rows => some (dbSet db dst (Table.mk td.schema rows))
        | Option.none => Option.none
      else Option.none
    | _, _ => Option.none
  | Stmt.update tname sets whereIsNull =>
    match dbGet db tname with
    | Option.none => Option.none
    | some t =>
      some (dbSet db tname (Table.mk t.schema
        (t.rows.map (fun r =>
          if getVal t.schema.cols r whereIsNull == Val.null then
            applySets t.schema.cols sets r
          else r))))
  | Stmt.dropTable name =>
    if (dbGet db name).isSome then some (dbRemove db name) else Option.none
  | Stmt.renameTable a b =>
    if (dbGet db a).isSome && !(dbGet db b).isSome then
      some (dbRename db a b)
    else Option.none
  | Stmt.alterAddColumn tname c =>
    match dbGet db tname with
    | Option.none => Option.none
    | some t =>
      if (colIdx t.schema.cols c.name).isSome then Option.none
      else
        some (dbSet db tname (Table.mk
          (TableDef.mk (t.schema.cols ++ [c]) t.schema.pk t.schema.uniques
            t.schema.checks t.schema.fks)
          (t.rows.map (fun r => r ++ [defaultVal now c.dflt]))))
  | Stmt.createIndex _ tname _ =>
    if (dbGet db tname).isSome then some db else Option.none

/-- Execute a statement list left to right, aborting on the first error. -/
def execStmts (now : String) : List Stmt → Db → Option Db
  | [], db => some db
  | s :: ss, db =>
    match execStmt now db s with
    | some db2 => execStmts now ss db2
    | Option.none => Option.none

/-! ## The migration catalog, transcribed from src/src-tauri/src/database.rs -/

/-- Direction of a migration, from `tauri_plugin_sql::MigrationKind`. -/
inductive MigrationKind where
  | up
  | down
deriving DecidableEq

/-- One migration unit, from `tauri_plugin_sql::Migration`: version,
description, operation (its SQL as a statement list), direction. -/
structure Migration where
  version : Nat
  description : String
  sql : List Stmt
  kind : MigrationKind
deriving DecidableEq

/-- `user_settings` table of migration 1 (database.rs lines 10-29). -/
def userSettingsDef : TableDef :=
  TableDef.mk
    [ Col.mk "id" "INTEGER" false Dflt.none,
      Col.mk "name" "TEXT" true (Dflt.val (Val.text "User")),
      Col.mk "avatar" "TEXT" false Dflt.none,
      Col.mk "theme" "TEXT" true (Dflt.val (Val.text "light")),
      Col.mk "sound_enabled" "INTEGER" true (Dflt.val (Val.int 1)),
      Col.mk "notifications_enabled" "INTEGER" true (Dflt.val (Val.int 1)),
      Col.mk "pomodoro_duration" "INTEGER" true (Dflt.val (Val.int 25)),
      Col.mk "short_break_duration" "INTEGER" true (Dflt.val (Val.int 5)),
      Col.mk "long_break_duration" "INTEGER" true (Dflt.val (Val.int 15)),
      Col.mk "auto_start_breaks" "INTEGER" true (Dflt.val (Val.int 0)),
      Col.mk "auto_start_pomodoros" "INTEGER" true (Dflt.val (Val.int 0)),
      Col.mk "long_break_interval" "INTEGER" true (Dflt.val (Val.int 4)),
      Col.mk "spotify_enabled" "INTEGER" true (Dflt.val (Val.int 0)),
      Col.mk "spotify_access_token" "TEXT" false Dflt.none,
      Col.mk "spotify_refresh_token" "TEXT" false Dflt.none,
      Col.mk "spotify_token_expiry" "TEXT" false Dflt.none,
      Col.mk "created_at" "TEXT" true Dflt.now,
      Col.mk "updated_at" "TEXT" true Dflt.now ]
    ["id"] [] [("id", Val.int 1)] []

/-- `skills` table of migration 1 (lines 35-45). -/
def skillsDef : TableDef :=
  TableDef.mk
    [ Col.mk "id" "TEXT" false Dflt.none,
      Col.mk "name" "TEXT" true Dflt.none,
      Col.mk "description" "TEXT" false Dflt.none,
      Col.mk "goal_hours" "INTEGER" true (Dflt.val (Val.int 10000)),
      Col.mk "current_minutes" "INTEGER" true (Dflt.val (Val.int 0)),
      Col.mk "color" "TEXT" true (Dflt.val (Val.text "#000000")),
      Col.mk "is_active" "INTEGER" true (Dflt.val (Val.int 0)),
      Col.mk "created_at" "TEXT" true Dflt.now,
      Col.mk "updated_at" "TEXT" true Dflt.now ]
    ["id"] [] [] []

/-- `tasks` table of migration 1 (lines 48-63). -/
def tasksDef : TableDef :=
  TableDef.mk
    [ Col.mk "id" "TEXT" false Dflt.none,
      Col.mk "skill_id" "TEXT" true Dflt.none,
      Col.mk "title" "TEXT" true Dflt.none,
      Col.mk "description" "TEXT" false Dflt.none,
      Col.mk "status" "TEXT" true (Dflt.val (Val.text "todo")),
      Col.mk "priority" "TEXT" true (Dflt.val (Val.text "medium")),
      Col.mk "due_date" "TEXT" false Dflt.none,
      Col.mk "estimated_pomodoros" "INTEGER" true (Dflt.val (Val.int 1)),
      Col.mk "pomodoro_sessions" "INTEGER" true (Dflt.val (Val.int 0)),
      Col.mk "total_minutes" "INTEGER" true (Dflt.val (Val.int 0)),
      Col.mk "order_index" "INTEGER" true (Dflt.val (Val.int 0)),
      Col.mk "created_at" "TEXT" true Dflt.now,
      Col.mk "completed_at" "TEXT" false Dflt.none ]
    ["id"] [] [] [FK.mk "skill_id" "skills" "id"]

/-- `timer_sessions` table of migration 1 (lines 66-78). -/
def timerSessionsDef : TableDef :=
  TableDef.mk
    [ Col.mk "id" "TEXT" false Dflt.none,
      Col.mk "task_id" "TEXT" true Dflt.none,
      Col.mk "skill_id" "TEXT" true Dflt.none,
      Col.mk "start_time" "TEXT" true Dflt.none,
      Col.mk "end_time" "TEXT" false Dflt.none,
      Col.mk "duration" "INTEGER" true Dflt.none,
      Col.mk "type" "TEXT" true Dflt.none,
      Col.mk "completed" "INTEGER" true (Dflt.val (Val.int 0)),
      Col.mk "created_at" "TEXT" true Dflt.now ]
    ["id"] [] []
    [FK.mk "task_id" "tasks" "id", FK.mk "skill_id" "skills" "id"]

/-- `achievements` table of migration 1 (lines 81-91). -/
def achievementsDef : TableDef :=
  TableDef.mk
    [ Col.mk "id" "TEXT" false Dflt.none,
      Col.mk "type" "TEXT" true Dflt.none,
      Col.mk "name" "TEXT" true Dflt.none,
      Col.mk "description" "TEXT" true Dflt.none,
      Col.mk "icon" "TEXT" true Dflt.none,
      Col.mk "unlocked_at" "TEXT" false Dflt.none,
      Col.mk "progress" "INTEGER" true (Dflt.val (Val.int 0)),
      Col.mk "target" "INTEGER" true Dflt.none,
      Col.mk "created_at" "TEXT" true Dflt.now ]
    ["id"] ["type"] [] []

/-- `reflections` table of migration 1 (lines 94-102). -/
def reflectionsDef : TableDef :=
  TableDef.mk
    [ Col.mk "id" "TEXT" false Dflt.none,
      Col.mk "date" "TEXT" true Dflt.none,
      Col.mk "content" "TEXT" true Dflt.none,
      Col.mk "mood" "TEXT" false Dflt.none,
      Col.mk "total_minutes" "INTEGER" false (Dflt.val (Val.int 0)),
      Col.mk "created_at" "TEXT" true Dflt.now,
      Col.mk "updated_at" "TEXT" true Dflt.now ]
    ["id"] ["date"] [] []

/-- `reflection_skills` junction table of migration 1 (lines 105-111). -/
def reflectionSkillsDef : TableDef :=
  TableDef.mk
    [ Col.mk "reflection_id" "TEXT" true Dflt.none,
      Col.mk "skill_id" "TEXT" true Dflt.none ]
    ["reflection_id", "skill_id"] [] []
    [FK.mk "reflection_id" "reflections" "id", FK.mk "skill_id" "skills" "id"]

/-- `daily_activities` table of migration 1 (lines 114-118). -/
def dailyActivitiesDef : TableDef :=
  TableDef.mk
    [ Col.mk "date" "TEXT" false Dflt.none,
      Col.mk "total_minutes" "INTEGER" true (Dflt.val (Val.int 0)),
      Col.mk "total_sessions" "INTEGER" true (Dflt.val (Val.int 0)) ]
    ["date"] [] [] []

/-- The `INSERT INTO user_settings (id, name) VALUES (1, 'User')` seed of
migration 1 (line 32). -/
def userSettingsSeed : Stmt :=
  Stmt.insert "user_settings" ["id", "name"] [[Val.int 1, Val.text "User"]]

/-- Migration 1, `create_initial_tables` (lines 5-129). -/
def migration1 : Migration :=
  Migration.mk 1 "create_initial_tables"
    [ Stmt.createTable "user_settings" userSettingsDef,
      userSettingsSeed,
      Stmt.createTable "skills" skillsDef,
      Stmt.createTable "tasks" tasksDef,
      Stmt.createTable "timer_sessions" timerSessionsDef,
      Stmt.createTable "achievements" achievementsDef,
      Stmt.createTable "reflections" reflectionsDef,
      Stmt.createTable "reflection_skills" reflectionSkillsDef,
      Stmt.createTable "daily_activities" dailyActivitiesDef,
      Stmt.createIndex "idx_tasks_skill_id" "tasks" ["skill_id"],
      Stmt.createIndex "idx_tasks_status" "tasks" ["status"],
      Stmt.createIndex "idx_timer_sessions_skill_id" "timer_sessions" ["skill_id"],
      Stmt.createIndex "idx_timer_sessions_task_id" "timer_sessions" ["task_id"],
      Stmt.createIndex "idx_timer_sessions_created_at" "timer_sessions" ["created_at"],
      Stmt.createIndex "idx_daily_activities_date" "daily_activities" ["date"] ]
    MigrationKind.up

/-- The 15 achievement seed rows of migration 2 (lines 134-149), in source
order, with columns (id, type, name, description, icon, target). -/
def achievementSeedRows : List (List Val) :=
  [ [Val.text "ach_first_hour", Val.text "first_hour", Val.text "First Hour",
     Val.text "Complete your first hour of focused work", Val.text "Clock", Val.int 60],
    [Val.text "ach_100_hours", Val.text "first_100_hours", Val.text "100 Hours",
     Val.text "Reach 100 hours of practice", Val.text "Trophy", Val.int 6000],
    [Val.text "ach_1000_hours", Val.text "first_1000_hours", Val.text "1000 Hours",
     Val.text "Reach 1000 hours of practice", Val.text "Award", Val.int 60000],
    [Val.text "ach_mastery", Val.text "skill_mastery", Val.text "Mastery Achieved",
     Val.text "Complete 10,000 hours on a skill", Val.text "Crown", Val.int 600000],
    [Val.text "ach_streak_7", Val.text "streak_7_days", Val.text "7 Day Streak",
     Val.text "Practice for 7 consecutive days", Val.text "Flame", Val.int 7],
    [Val.text "ach_streak_30", Val.text "streak_30_days", Val.text "30 Day Streak",
     Val.text "Practice for 30 consecutive days", Val.text "Star", Val.int 30],
    [Val.text "ach_streak_100", Val.text "streak_100_days", Val.text "100 Day Streak",
     Val.text "Practice for 100 consecutive days", Val.text "Zap", Val.int 100],
    [Val.text "ach_streak_365", Val.text "streak_365_days", Val.text "Year of Growth",
     Val.text "Practice for 365 consecutive days", Val.text "Sparkles", Val.int 365],
    [Val.text "ach_first_skill", Val.text "first_skill", Val.text "Journey Begins",
     Val.text "Create your first skill", Val.text "Target", Val.int 1],
    [Val.text "ach_five_skills", Val.text "five_skills", Val.text "Polymath",
     Val.text "Work on 5 different skills", Val.text "Book", Val.int 5],
    [Val.text "ach_ten_skills", Val.text "ten_skills", Val.text "Renaissance",
     Val.text "Work on 10 different skills", Val.text "Library", Val.int 10],
    [Val.text "ach_night_owl", Val.text "night_owl", Val.text "Night Owl",
     Val.text "Complete a session after midnight", Val.text "Moon", Val.int 1],
    [Val.text "ach_early_bird", Val.text "early_bird", Val.text "Early Bird",
     Val.text "Complete a session before 6 AM", Val.text "Sunrise", Val.int 1],
    [Val.text "ach_focused", Val.text "focused", Val.text "Laser Focused",
     Val.text "Complete 10 pomodoros in one day", Val.text "Focus", Val.int 10],
    [Val.text "ach_dedicated", Val.text "dedicated", Val.text "Dedicated",
     Val.text "Complete 50 pomodoros in one week", Val.text "Heart", Val.int 50] ]

/-- Migration 2, `insert_default_achievements` (lines 130-152). -/
def migration2 : Migration :=
  Migration.mk 2 "insert_default_achievements"
    [ Stmt.insert "achievements"
        ["id", "type", "name", "description", "icon", "target"]
        achievementSeedRows ]
    MigrationKind.up

/-- Migration 3, `add_timer_session_columns` (lines 153-166). -/
def migration3 : Migration :=
  Migration.mk 3 "add_timer_session_columns"
    [ Stmt.alterAddColumn "timer_sessions"
        (Col.mk "planned_duration" "INTEGER" false Dflt.none),
      Stmt.alterAddColumn "timer_sessions"
        (Col.mk "session_type" "TEXT" false Dflt.none),
      Stmt.update "timer_sessions"
        [("planned_duration", Expr.col "duration")] "planned_duration",
      Stmt.update "timer_sessions"
        [("session_type", Expr.val (Val.text "pomodoro"))] "session_type" ]
    MigrationKind.up

/-- The replacement `timer_sessions_new` table of migration 4
(lines 172-186): declares `planned_duration` and `session_type` BEFORE
`created_at`, unlike the live table (where migration 3's ALTER TABLE
appended them AFTER `created_at`). -/
def timerSessionsNewDef : TableDef :=
  TableDef.mk
    [ Col.mk "id" "TEXT" false Dflt.none,
      Col.mk "task_id" "TEXT" false Dflt.none,
      Col.mk "skill_id" "TEXT" true Dflt.none,
      Col.mk "start_time" "TEXT" true Dflt.none,
      Col.mk "end_time" "TEXT" false Dflt.none,
      Col.mk "duration" "INTEGER" true Dflt.none,
      Col.mk "type" "TEXT" true Dflt.none,
      Col.mk "completed" "INTEGER" true (Dflt.val (Val.int 0)),
      Col.mk "planned_duration" "INTEGER" false Dflt.none,
      Col.mk "session_type" "TEXT" false Dflt.none,
      Col.mk "created_at" "TEXT" true Dflt.now ]
    ["id"] [] []
    [FK.mk "task_id" "tasks" "id", FK.mk "skill_id" "skills" "id"]

/-- Migration 4, `make_task_id_nullable` (lines 167-204): the
copy-drop-rename rebuild. -/
def migration4 : Migration :=
  Migration.mk 4 "make_task_id_nullable"
    [ Stmt.createTable "timer_sessions_new" timerSessionsNewDef,
      Stmt.insertSelectAll "timer_sessions_new" "timer_sessions",
      Stmt.dropTable "timer_sessions",
      Stmt.renameTable "timer_sessions_new" "timer_sessions",
      Stmt.createIndex "idx_timer_sessions_skill_id" "timer_sessions" ["skill_id"],
      Stmt.createIndex "idx_timer_sessions_task_id" "timer_sessions" ["task_id"],
      Stmt.createIndex "idx_timer_sessions_created_at" "timer_sessions" ["created_at"] ]
    MigrationKind.up

/-- Migration 5, `add_task_priority_duedate_estimated` (lines 205-217). -/
def migration5 : Migration :=
  Migration.mk 5 "add_task_priority_duedate_estimated"
    [ Stmt.update "tasks"
        [("priority", Expr.val (Val.text "medium"))] "priority",
      Stmt.update "tasks"
        [("estimated_pomodoros", Expr.val (Val.int 1))] "estimated_pomodoros" ]
    MigrationKind.up

/-- Migration 6, `add_user_settings_goal_columns` (lines 218-228). -/
def migration6 : Migration :=
  Migration.mk 6 "add_user_settings_goal_columns"
    [ Stmt.alterAddColumn "user_settings"
        (Col.mk "daily_goal_minutes" "INTEGER" true (Dflt.val (Val.int 240))),
      Stmt.alterAddColumn "user_settings"
        (Col.mk "weekly_goal_minutes" "INTEGER" true (Dflt.val (Val.int 420))),
      Stmt.alterAddColumn "user_settings"
        (Col.mk "email" "TEXT" false Dflt.none) ]
    MigrationKind.up

/-- `get_migrations` (database.rs lines 3-230): the full catalog, in source
order. -/
def get_migrations : List Migration :=
  [migration1, migration2, migration3, migration4, migration5, migration6]

/-! ## The migration runner, modelled from the spec

The runner itself is `tauri_plugin_sql`, an external crate; only its caller
`run` (src/src-tauri/src/main.rs lines 7-19) is in this repository. The
definitions below are therefore modelled from the spec (sections 4.2, 7):
read the recorded version (0 for a fresh database), validate the catalog,
sort it, apply every unit with a larger version in ascending order inside a
per-unit transaction, record the new version after each successful unit,
and stop with a descriptive error on the first failure. A unit's operation
is executed all-or-nothing: on failure the transaction is rolled back, so
the database keeps the exact state it had before the unit began. -/

/-- Modelled from the spec: the database state seen by the runner — the
relational store plus the durable `SchemaVersionRecord` (spec section 3),
0 when uninitialized. -/
structure DbState where
  db : Db
  version : Nat
deriving DecidableEq

/-- Modelled from the spec: `MigrationExecutionError(version, description)`
(spec section 7), identifying the failing unit. -/
structure MigrationError where
  version : Nat
  description : String
deriving DecidableEq

/-- Modelled from the spec: the observable outcome of one runner invocation —
a catalog error (rejected before any database access), or the final state,
the trace of units applied in order, and the unit error if one failed. -/
inductive ApplyResult where
  | catalogError
  | ran (st : DbState) (applied : List Migration) (err : Option MigrationError)
deriving DecidableEq

/-- Insert a unit into a version-sorted list (helper for the runner's
defensive re-sort, spec section 4.1). -/
def sortInsert (m : Migration) : List Migration → List Migration
  | [] => [m]
  | n :: ns =>
    if m.version ≤ n.version then m :: n :: ns else n :: sortInsert m ns

/-- Modelled from the spec: the runner's defensive re-sort of the catalog by
ascending version (insertion sort). -/
def sortByVersion : List Migration → List Migration
  | [] => []
  | m :: ms => sortInsert m (sortByVersion ms)

/-- Adjacent-pairs check that versions are strictly ascending. -/
def strictlyAscending : List Migration → Bool
  | [] => true
  | [_] => true
  | m :: n :: ms => (m.version < n.version) && strictlyAscending (n :: ms)

/-- Modelled from the spec: catalog validation (spec sections 4.1, 7) — the
runner rejects a catalog whose versions are duplicated or non-increasing
after the sort, or that contains a unit with an empty operation, before
any database access. -/
def validateCatalog (c : List Migration) : Bool :=
  strictlyAscending (sortByVersion c) && c.all (fun m => !m.sql.isEmpty)

/-- Modelled from the spec: the units still to apply — those whose version
exceeds the recorded version, in ascending order (spec section 4.2 step 3). -/
def pending (c : List Migration) (v : Nat) : List Migration :=
  (sortByVersion c).filter (fun m => v < m.version)

/-- Modelled from the spec: apply units in order (spec section 4.2 step 4).
Each unit's operation runs in its own transaction: on success the recorded
version becomes the unit's version and the run continues; on failure the
transaction is rolled back (the state is exactly the one before the unit
began), no later unit is attempted, and the error names the unit. Returns
the final state, the applied units in order, and the error if any. -/
def runUnits (exec : List Stmt → Db → Option Db) :
    List Migration → DbState → DbState × List Migration × Option MigrationError
  | [], st => (st, [], Option.none)
  | m :: ms, st =>
    match exec m.sql st.db with
    | some db2 =>
      match runUnits exec ms (DbState.mk db2 m.version) with
      | (st2, applied, err) => (st2, m :: applied, err)
    | Option.none => (st, [], some (MigrationError.mk m.version m.description))

/-- Modelled from the spec: `apply(db_handle, catalog)` (spec section 4.2) —
validate, select the pending units, run them. -/
def apply (exec : List Stmt → Db → Option Db) (c : List Migration)
    (st : DbState) : ApplyResult :=
  if validateCatalog c then
    match runUnits exec (pending c st.version) st with
    | (st2, applied, err) => ApplyResult.ran st2 applied err
  else ApplyResult.catalogError

/-- Maximum version in a catalog (0 for the empty catalog). -/
def maxVersion (c : List Migration) : Nat :=
  c.foldl (fun a m => max a m.version) 0

/-- The recorded version after successfully running a unit list from
recorded version `v`: the last unit's version, or `v` for no units. -/
def lastVersion (v : Nat) : List Migration → Nat
  | [] => v
  | m :: ms => lastVersion m.version ms

/-- The fresh database: no tables, recorded version 0. -/
def freshDb : DbState := DbState.mk [] 0

/-- Final state of an `apply` run (fresh-state fallback for the
`catalogError` case, which the uses below never hit). -/
def applyState (now : String) (ms : List Migration) : DbState :=
  match apply (execStmts now) ms freshDb with
  | ApplyResult.ran st _ _ => st
  | ApplyResult.catalogError => freshDb

/-- Trace of units applied by an `apply` run. -/
def applyTrace (now : String) (ms : List Migration) : List Migration :=
  match apply (execStmts now) ms freshDb with
  | ApplyResult.ran _ a _ => a
  | ApplyResult.catalogError => []

/-- Does the database contain a table of this name? -/
def hasTable (db : Db) (n : String) : Bool := (dbGet db n).isSome

/-- Number of rows of a table (0 when the table is absent). -/
def rowCount (db : Db) (n : String) : Nat :=
  match dbGet db n with
  | some t => t.rows.length
  | Option.none => 0

/-- Does the table hold exactly one row, whose `id` column is 1? -/
def singleRowIdOne (db : Db) (n : String) : Bool :=
  match dbGet db n with
  | some t =>
    match t.rows with
    | [r] => getVal t.schema.cols r "id" == Val.int 1
    | _ => false
  | Option.none => false

/-- Named column of the first row of a table (NULL when absent). -/
def firstRowVal (db : Db) (n : String) (col : String) : Val :=
  match dbGet db n with
  | some t =>
    match t.rows with
    | r :: _ => getVal t.schema.cols r col
    | [] => Val.null
  | Option.none => Val.null

/-! ## General lemmas about the runner -/

/-- Strict version order on units. -/
def versionLt (a b : Migration) : Prop := a.version < b.version

instance : IsTrans Migration versionLt :=
  ⟨fun _ _ _ h1 h2 => Nat.lt_trans h1 h2⟩

theorem strictlyAscending_iff_chain' :
    ∀ l : List Migration,
      strictlyAscending l = true ↔ List.Chain' versionLt l
  | [] => by simp [strictlyAscending]
  | [m] => by simp [strictlyAscending]
  | m :: n :: ms => by
    rw [strictlyAscending, Bool.and_eq_true, decide_eq_true_eq,
      List.chain'_cons, strictlyAscending_iff_chain' (n :: ms)]
    exact Iff.rfl

theorem strictlyAscending_iff_pairwise (l : List Migration) :
    strictlyAscending l = true ↔ List.Pairwise versionLt l := by
  rw [strictlyAscending_iff_chain', List.chain'_iff_pairwise]

theorem sortInsert_perm (m : Migration) :
    ∀ l : List Migration, (sortInsert m l).Perm (m :: l)
  | [] => List.Perm.refl _
  | n :: ns => by
    rw [sortInsert]
    by_cases h : m.version ≤ n.version
    · rw [if_pos h]
    · rw [if_neg h]
      exact ((sortInsert_perm m ns).cons n).trans (List.Perm.swap m n ns)

theorem sortByVersion_perm :
    ∀ l : List Migration, (sortByVersion l).Perm l
  | [] => List.Perm.refl _
  | m :: ms =>
    (sortInsert_perm m (sortByVersion ms)).trans ((sortByVersion_perm ms).cons m)

theorem strictlyAscending_tail {m : Migration} {l : List Migration}
    (h : strictlyAscending (m :: l) = true) : strictlyAscending l = true := by
  match l with
  | [] => rfl
  | n :: ns =>
    rw [strictlyAscending, Bool.and_eq_true] at h
    exact h.2

theorem strictlyAscending_cons_lt {m n : Migration} {l : List Migration}
    (h : strictlyAscending (m :: n :: l) = true) : m.version < n.version := by
  rw [strictlyAscending, Bool.and_eq_true, decide_eq_true_eq] at h
  exact h.1

theorem sortByVersion_eq_self :
    ∀ l : List Migration, strictlyAscending l = true → sortByVersion l = l
  | [] => fun _ => rfl
  | m :: ms => fun h => by
    rw [sortByVersion, sortByVersion_eq_self ms (strictlyAscending_tail h)]
    match ms with
    | [] => rfl
    | n :: ns =>
      rw [sortInsert, if_pos (Nat.le_of_lt (strictlyAscending_cons_lt h))]

theorem strictlyAscending_filter (p : Migration → Bool)
    {l : List Migration} (h : strictlyAscending l = true) :
    strictlyAscending (l.filter p) = true := by
  rw [strictlyAscending_iff_pairwise] at h ⊢
  exact h.sublist (List.filter_sublist l)

theorem strictlyAscending_nodup {l : List Migration}
    (h : strictlyAscending l = true) :
    (l.map (fun m => m.version)).Nodup := by
  rw [strictlyAscending_iff_pairwise] at h
  exact List.pairwise_map.mpr (h.imp (fun hab => Nat.ne_of_lt hab))

theorem lastVersion_self_le :
    ∀ (ms : List Migration) (m : Migration),
      strictlyAscending (m :: ms) = true →
      m.version ≤ lastVersion m.version ms
  | [], _, _ => Nat.le_refl _
  | n :: ns, m, h => by
    rw [lastVersion]
    exact Nat.le_trans (Nat.le_of_lt (strictlyAscending_cons_lt h))
      (lastVersion_self_le ns n (strictlyAscending_tail h))

theorem mem_version_le_lastVersion :
    ∀ (l : List Migration) (v : Nat) (m : Migration),
      strictlyAscending l = true → m ∈ l → m.version ≤ lastVersion v l
  | [], _, _, _, hm => absurd hm (List.not_mem_nil _)
  | m0 :: ms, v, m, h, hm => by
    rw [lastVersion]
    rcases List.mem_cons.mp hm with he | ht
    · exact he ▸ lastVersion_self_le ms m0 h
    · exact mem_version_le_lastVersion ms m0.version m (strictlyAscending_tail h) ht

theorem runUnits_ok_trace (exec : List Stmt → Db → Option Db) :
    ∀ (ms : List Migration) (st st2 : DbState) (applied : List Migration),
      runUnits exec ms st = (st2, applied, Option.none) → applied = ms
  | [], st, st2, applied, h => by
    simp only [runUnits, Prod.mk.injEq] at h
    exact h.2.1.symm
  | m :: ms, st, st2, applied, h => by
    cases he : exec m.sql st.db with
    | none =>
      simp only [runUnits, he, Prod.mk.injEq] at h
      exact absurd h.2.2 (by simp)
    | some db2 =>
      cases hr : runUnits exec ms (DbState.mk db2 m.version) with
      | mk st3 rest =>
        cases rest with
        | mk a3 e3 =>
          simp only [runUnits, he, hr, Prod.mk.injEq] at h
          rw [← h.2.1, runUnits_ok_trace exec ms _ st3 a3 (by rw [hr, h.2.2])]

theorem runUnits_ok_version (exec : List Stmt → Db → Option Db) :
    ∀ (ms : List Migration) (st st2 : DbState) (applied : List Migration),
      runUnits exec ms st = (st2, applied, Option.none) →
      st2.version = lastVersion st.version ms
  | [], st, st2, applied, h => by
    simp only [runUnits, Prod.mk.injEq] at h
    rw [← h.1]
    rfl
  | m :: ms, st, st2, applied, h => by
    cases he : exec m.sql st.db with
    | none =>
      simp only [runUnits, he, Prod.mk.injEq] at h
      exact absurd h.2.2 (by simp)
    | some db2 =>
      cases hr : runUnits exec ms (DbState.mk db2 m.version) with
      | mk st3 rest =>
        cases rest with
        | mk a3 e3 =>
          simp only [runUnits, he, hr, Prod.mk.injEq] at h
          rw [lastVersion, ← h.1]
          exact runUnits_ok_version exec ms _ st3 a3 (by rw [hr, h.2.2])

theorem runUnits_sublist (exec : List Stmt → Db → Option Db) :
    ∀ (ms : List Migration) (st st2 : DbState) (applied : List Migration)
      (err : Option MigrationError),
      runUnits exec ms st = (st2, applied, err) → applied.Sublist ms
  | [], st, st2, applied, err, h => by
    simp only [runUnits, Prod.mk.injEq] at h
    rw [← h.2.1]
  | m :: ms, st, st2, applied, err, h => by
    cases he : exec m.sql st.db with
    | none =>
      simp only [runUnits, he, Prod.mk.injEq] at h
      rw [← h.2.1]
      exact List.nil_sublist _
    | some db2 =>
      cases hr : runUnits exec ms (DbState.mk db2 m.version) with
      | mk st3 rest =>
        cases rest with
        | mk a3 e3 =>
          simp only [runUnits, he, hr, Prod.mk.injEq] at h
          rw [← h.2.1]
          exact (runUnits_sublist exec ms _ st3 a3 e3 hr).cons₂ m

theorem runUnits_fail_split (exec : List Stmt → Db → Option Db) :
    ∀ (ms : List Migration) (st st2 : DbState) (applied : List Migration)
      (e : MigrationError),
      runUnits exec ms st = (st2, applied, some e) →
      ∃ m rest, ms = applied ++ m :: rest ∧
        e.version = m.version ∧ e.description = m.description ∧
        exec m.sql st2.db = Option.none ∧
        runUnits exec applied st = (st2, applied, Option.none)
  | [], st, st2, applied, e, h => by
    simp only [runUnits, Prod.mk.injEq] at h
    exact absurd h.2.2 (by simp)
  | m :: ms, st, st2, applied, e, h => by
    cases he : exec m.sql st.db with
    | none =>
      simp only [runUnits, he, Prod.mk.injEq] at h
      obtain ⟨h1, h2, h3⟩ := h
      refine ⟨m, ms, by rw [← h2]; rfl, ?_, ?_, ?_, ?_⟩
      · rw [← Option.some_inj.mp h3]
      · rw [← Option.some_inj.mp h3]
      · rw [← h1]
        exact he
      · rw [← h2, ← h1, runUnits]
    | some db2 =>
      cases hr : runUnits exec ms (DbState.mk db2 m.version) with
      | mk st3 rest =>
        cases rest with
        | mk a3 e3 =>
          simp only [runUnits, he, hr, Prod.mk.injEq] at h
          obtain ⟨h1, h2, h3⟩ := h
          rcases runUnits_fail_split exec ms _ st3 a3 e (by rw [hr, h3]) with
            ⟨mf, restf, hsplit, hv, hd, hexec, hrun⟩
          refine ⟨mf, restf, by rw [← h2, hsplit]; rfl, hv, hd, ?_, ?_⟩
          · rw [← h1]
            exact hexec
          · rw [← h2, ← h1]
            simp only [runUnits, he, hrun]

theorem apply_ran_inv (exec : List Stmt → Db → Option Db)
    (c : List Migration) (st st2 : DbState) (applied : List Migration)
    (err : Option MigrationError)
    (h : apply exec c st = ApplyResult.ran st2 applied err) :
    validateCatalog c = true ∧
      runUnits exec (pending c st.version) st = (st2, applied, err) := by
  cases hv : validateCatalog c with
  | false =>
    rw [apply, hv] at h
    exact absurd h (by simp)
  | true =>
    rw [apply, hv, if_pos rfl] at h
    refine ⟨rfl, ?_⟩
    cases hr : runUnits exec (pending c st.version) st with
    | mk st3 rest =>
      cases rest with
      | mk a3 e3 =>
        rw [hr] at h
        simp only [ApplyResult.ran.injEq] at h
        rw [h.1, h.2.1, h.2.2]

theorem lastVersion_eq_foldl :
    ∀ (ms : List Migration) (m : Migration),
      strictlyAscending (m :: ms) = true →
      lastVersion m.version ms = ms.foldl (fun a x => max a x.version) m.version
  | [], _, _ => rfl
  | n :: ns, m, h => by
    rw [lastVersion, List.foldl_cons,
      Nat.max_eq_right (Nat.le_of_lt (strictlyAscending_cons_lt h))]
    exact lastVersion_eq_foldl ns n (strictlyAscending_tail h)

theorem lastVersion_zero_eq_max :
    ∀ c : List Migration, strictlyAscending c = true →
      lastVersion 0 c = maxVersion c
  | [], _ => rfl
  | m :: ms, h => by
    rw [lastVersion, maxVersion, List.foldl_cons, Nat.zero_max m.version]
    exact lastVersion_eq_foldl ms m h

theorem apply_ok_le (exec : List Stmt → Db → Option Db)
    (c : List Migration) (st st2 : DbState) (applied : List Migration)
    (h : apply exec c st = ApplyResult.ran st2 applied Option.none) :
    validateCatalog c = true ∧ st.version ≤ st2.version ∧
      ∀ m ∈ sortByVersion c, m.version ≤ st2.version := by
  obtain ⟨hv, hru⟩ := apply_ran_inv exec c st st2 applied Option.none h
  have hver : st2.version = lastVersion st.version (pending c st.version) :=
    runUnits_ok_version exec _ st st2 applied hru
  have hascs : strictlyAscending (sortByVersion c) = true :=
    ((Bool.and_eq_true _ _).mp hv).1
  have hascp : strictlyAscending (pending c st.version) = true :=
    strictlyAscending_filter _ hascs
  have hstle : st.version ≤ st2.version := by
    rw [hver]
    cases hp : pending c st.version with
    | nil =>
      rw [lastVersion]
    | cons a rest =>
      rw [lastVersion]
      have ha : a ∈ pending c st.version := by
        rw [hp]
        exact List.mem_cons_self a rest
      have halt : st.version < a.version := by
        rw [pending] at ha
        exact of_decide_eq_true (List.mem_filter.mp ha).2
      exact Nat.le_trans (Nat.le_of_lt halt)
        (lastVersion_self_le rest a (hp ▸ hascp))
  refine ⟨hv, hstle, fun m hm => ?_⟩
  by_cases hlt : st.version < m.version
  · have hmem : m ∈ pending c st.version := by
      rw [pending]
      exact List.mem_filter.mpr ⟨hm, decide_eq_true hlt⟩
    rw [hver]
    exact mem_version_le_lastVersion (pending c st.version) st.version m hascp hmem
  · exact Nat.le_trans (Nat.le_of_not_lt hlt) hstle

/-! ## Claim theorems -/

/-- C1: for every catalog with strictly ordered versions (hence unique),
positive versions and nonempty operations, run on a fresh database at
recorded version 0, a successful `apply` executes every unit exactly once
(the applied trace is the whole catalog, with no duplicate versions), in
ascending version order, and the final recorded version is the maximum
version of the catalog. Instantiated at `get_migrations` (where the
maximum is 6) by the witness. -/
theorem apply_fresh_applies_all (exec : List Stmt → Db → Option Db)
    (c : List Migration) (st st2 : DbState) (applied : List Migration)
    (hasc : strictlyAscending c = true)
    (hpos : ∀ m ∈ c, 0 < m.version)
    (hfresh : st.version = 0)
    (h : apply exec c st = ApplyResult.ran st2 applied Option.none) :
    applied = c ∧ strictlyAscending applied = true ∧
      (applied.map (fun m => m.version)).Nodup ∧
      st2.version = maxVersion c := by
  obtain ⟨hv, hru⟩ := apply_ran_inv exec c st st2 applied Option.none h
  have hpend : pending c st.version = c := by
    rw [pending, sortByVersion_eq_self c hasc, hfresh]
    exact List.filter_eq_self.mpr (fun m hm => decide_eq_true (hpos m hm))
  rw [hpend] at hru
  have htrace : applied = c := runUnits_ok_trace exec c st st2 applied hru
  refine ⟨htrace, htrace ▸ hasc, htrace ▸ strictlyAscending_nodup hasc, ?_⟩
  rw [runUnits_ok_version exec c st st2 applied hru, hfresh]
  exact lastVersion_zero_eq_max c hasc

/-- Witness for C1: the concrete catalog `get_migrations` on the fresh
database — every unit is applied, in order, and the recorded version ends
at `maxVersion get_migrations = 6`. -/
theorem apply_fresh_applies_all_witness :
    applyTrace "T" get_migrations = get_migrations ∧
      (applyState "T" get_migrations).version = maxVersion get_migrations ∧
      maxVersion get_migrations = 6 :=
  have h := apply_fresh_applies_all (execStmts "T") get_migrations freshDb
    (applyState "T" get_migrations) (applyTrace "T" get_migrations)
    (by decide) (by decide) rfl rfl
  ⟨h.1, h.2.2.2, by decide⟩

/-- C2: modelled from the spec (each unit runs in its own transaction,
rolled back in full on failure). If `apply` ends with a unit error, the
pending list splits as the applied prefix, the failing unit, and the
unattempted rest; the error carries the failing unit's version and
description; the failing unit's operation indeed failed on the result
state; and the result state (all tables, rows and the recorded version) is
exactly the state reached by the applied prefix alone — the state
immediately before the failing unit began. -/
theorem apply_unit_failure_rolls_back (exec : List Stmt → Db → Option Db)
    (c : List Migration) (st st2 : DbState) (applied : List Migration)
    (e : MigrationError)
    (h : apply exec c st = ApplyResult.ran st2 applied (some e)) :
    ∃ m rest, pending c st.version = applied ++ m :: rest ∧
      e.version = m.version ∧ e.description = m.description ∧
      exec m.sql st2.db = Option.none ∧
      runUnits exec applied st = (st2, applied, Option.none) := by
  obtain ⟨hv, hru⟩ := apply_ran_inv exec c st st2 applied (some e) h
  rcases runUnits_fail_split exec (pending c st.version) st st2 applied e hru with
    ⟨m, rest, hsplit, hver, hdesc, hexec, hrun⟩
  exact ⟨m, rest, hsplit, hver, hdesc, hexec, hrun⟩

/-- A one-column table used by the runner failure scenario. -/
def tinyDef : TableDef :=
  TableDef.mk [Col.mk "id" "INTEGER" false Dflt.none] ["id"] [] [] []

/-- Failure-scenario unit 1: creates table `t` and inserts row 1. -/
def unitOne : Migration :=
  Migration.mk 1 "create_t"
    [Stmt.createTable "t" tinyDef, Stmt.insert "t" ["id"] [[Val.int 1]]]
    MigrationKind.up

/-- Failure-scenario unit 2: re-inserts primary key 1, which fails. -/
def unitTwo : Migration :=
  Migration.mk 2 "dup_insert"
    [Stmt.insert "t" ["id"] [[Val.int 1]]]
    MigrationKind.up

/-- The state after failure-scenario unit 1. -/
def stAfterOne : DbState :=
  DbState.mk [("t", Table.mk tinyDef [[Val.int 1]])] 1

/-- Witness for C2: on the two-unit failure catalog, `apply` stops at the
failing unit 2, reports its version and description, and leaves exactly
the state unit 1 produced. -/
theorem apply_unit_failure_rolls_back_witness :
    ∃ m rest,
      pending [unitOne, unitTwo] freshDb.version = [unitOne] ++ m :: rest ∧
      (MigrationError.mk 2 "dup_insert").version = m.version ∧
      (MigrationError.mk 2 "dup_insert").description = m.description ∧
      execStmts "T" m.sql stAfterOne.db = Option.none ∧
      runUnits (execStmts "T") [unitOne] freshDb =
        (stAfterOne, [unitOne], Option.none) :=
  apply_unit_failure_rolls_back (execStmts "T") [unitOne, unitTwo] freshDb
    stAfterOne [unitOne] (MigrationError.mk 2 "dup_insert") rfl

/-- C3: modelled from the spec runner. After a successful
`apply exec c st`, (a) re-running `apply` with the unchanged catalog from
the resulting state applies zero units and returns success, and (b) for a
catalog extended at the end with higher-versioned units (`c ++ ext` still
strictly ascending, operations nonempty), any run from the resulting state
applies only units of `ext` — previously applied units are never
re-executed. -/
theorem apply_idempotent_incremental (exec : List Stmt → Db → Option Db)
    (c ext : List Migration) (st st2 : DbState) (applied : List Migration)
    (hasc2 : strictlyAscending (c ++ ext) = true)
    (h : apply exec c st = ApplyResult.ran st2 applied Option.none) :
    apply exec c st2 = ApplyResult.ran st2 [] Option.none ∧
      ∀ st3 applied2 err2,
        apply exec (c ++ ext) st2 = ApplyResult.ran st3 applied2 err2 →
        applied2.Sublist ext := by
  obtain ⟨hv, hstle, hle⟩ := apply_ok_le exec c st st2 applied h
  have hpend : pending c st2.version = [] := by
    rw [pending]
    exact List.filter_eq_nil_iff.mpr
      (fun m hm => by
        simp only [decide_eq_true_eq]
        exact Nat.not_lt.mpr (hle m hm))
  have hcsub : ∀ m ∈ c, m.version ≤ st2.version := fun m hm =>
    hle m ((sortByVersion_perm c).mem_iff.mpr hm)
  refine ⟨?_, ?_⟩
  · rw [apply, if_pos hv, hpend, runUnits]
  · intro st3 applied2 err2 h2
    obtain ⟨hv2, hru2⟩ :=
      apply_ran_inv exec (c ++ ext) st2 st3 applied2 err2 h2
    have hpend2 : pending (c ++ ext) st2.version =
        ext.filter (fun m => decide (st2.version < m.version)) := by
      rw [pending, sortByVersion_eq_self _ hasc2, List.filter_append]
      rw [List.filter_eq_nil_iff.mpr
        (fun m hm => by
          simp only [decide_eq_true_eq]
          exact Nat.not_lt.mpr (hcsub m hm))]
      rfl
    rw [hpend2] at hru2
    exact (runUnits_sublist exec _ st2 st3 applied2 err2 hru2).trans
      (List.filter_sublist ext)

/-- State reached by running `apply` on a catalog from an arbitrary start
state (fresh-state fallback for the rejected-catalog case). -/
def applyStateFrom (now : String) (ms : List Migration) (st : DbState) :
    DbState :=
  match apply (execStmts now) ms st with
  | ApplyResult.ran st2 _ _ => st2
  | ApplyResult.catalogError => freshDb

/-- Trace of units applied by an `apply` run from an arbitrary start state. -/
def applyTraceFrom (now : String) (ms : List Migration) (st : DbState) :
    List Migration :=
  match apply (execStmts now) ms st with
  | ApplyResult.ran _ a _ => a
  | ApplyResult.catalogError => []

/-- Unit error of an `apply` run from an arbitrary start state. -/
def applyErrFrom (now : String) (ms : List Migration) (st : DbState) :
    Option MigrationError :=
  match apply (execStmts now) ms st with
  | ApplyResult.ran _ _ e => e
  | ApplyResult.catalogError => Option.none

/-- The state after applying the first five catalog units to the fresh
database. -/
def stAfterFive : DbState := applyState "T" (List.take 5 get_migrations)

/-- Witness for C3: after units 1-5 of the real catalog, re-running the
same five-unit catalog applies zero units and succeeds, and running the
catalog extended with migration 6 applies only units from the extension. -/
theorem apply_idempotent_incremental_witness :
    apply (execStmts "T") (List.take 5 get_migrations) stAfterFive =
      ApplyResult.ran stAfterFive [] Option.none ∧
      List.Sublist
        (applyTraceFrom "T" (List.take 5 get_migrations ++ [migration6])
          stAfterFive)
        [migration6] :=
  have h := apply_idempotent_incremental (execStmts "T")
    (List.take 5 get_migrations) [migration6] freshDb stAfterFive
    (applyTrace "T" (List.take 5 get_migrations)) (by decide) rfl
  ⟨h.1,
    h.2 (applyStateFrom "T" (List.take 5 get_migrations ++ [migration6])
        stAfterFive)
      (applyTraceFrom "T" (List.take 5 get_migrations ++ [migration6])
        stAfterFive)
      (applyErrFrom "T" (List.take 5 get_migrations ++ [migration6])
        stAfterFive)
      rfl⟩

/-- C5: the catalog returned by `get_migrations` satisfies the catalog
invariant — its version sequence, in the order returned and before any
re-sorting, is exactly [1, 2, 3, 4, 5, 6]: every version positive, pairwise
unique, strictly ascending. -/
theorem get_migrations_catalog_invariant :
    get_migrations.map (fun m => m.version) = [1, 2, 3, 4, 5, 6] ∧
      (∀ m ∈ get_migrations, 0 < m.version) ∧
      (get_migrations.map (fun m => m.version)).Nodup ∧
      strictlyAscending get_migrations = true :=
  ⟨rfl, by decide, by decide, rfl⟩

/-- C7: modelled from the spec runner (catalog validation happens before
any database access). A malformed catalog — two units sharing a version,
or a unit with an empty operation — makes `apply` return the catalog
error, for every start state and every execution function: nothing is
applied. -/
theorem malformed_catalog_rejected (exec : List Stmt → Db → Option Db)
    (c : List Migration) (st : DbState)
    (h : ¬ (c.map (fun m => m.version)).Nodup ∨ ∃ m ∈ c, m.sql = []) :
    apply exec c st = ApplyResult.catalogError := by
  have hv : validateCatalog c = false := by
    cases hval : validateCatalog c with
    | false => rfl
    | true =>
      exfalso
      obtain ⟨hasc, hall⟩ := (Bool.and_eq_true _ _).mp hval
      rcases h with hdup | ⟨m, hm, hsql⟩
      · exact hdup
          (((sortByVersion_perm c).map (fun m => m.version)).nodup_iff.mp
            (strictlyAscending_nodup hasc))
      · have := List.all_eq_true.mp hall m hm
        rw [hsql] at this
        simp at this
  rw [apply, hv]
  rfl

/-- Two toy units sharing version 1 (distinct descriptions and nonempty
operations), used to witness the duplicate-version rejection. -/
def dupUnitA : Migration :=
  Migration.mk 1 "first_copy" [Stmt.createTable "t" tinyDef] MigrationKind.up

def dupUnitB : Migration :=
  Migration.mk 1 "second_copy" [Stmt.createTable "t" tinyDef] MigrationKind.up

/-- Witness for C7: the duplicate-version catalog [dupUnitA, dupUnitB] is
rejected by the runner before any database access. -/
theorem malformed_catalog_rejected_witness :
    ¬ ([dupUnitA, dupUnitB].map (fun m => m.version)).Nodup ∧
      apply (execStmts "T") [dupUnitA, dupUnitB] freshDb =
        ApplyResult.catalogError :=
  ⟨by decide,
    malformed_catalog_rejected (execStmts "T") [dupUnitA, dupUnitB] freshDb
      (Or.inl (by decide))⟩

/-- Explicit state-passing embedding of a call to `get_migrations`
(database.rs lines 3-230): the function takes no arguments, reads no
process state and performs no effect — its body is a single vec literal of
constants — so the embedded call returns that literal and threads the
process state through unchanged. -/
def get_migrationsCall {σ : Type} (s : σ) : List Migration × σ :=
  (get_migrations, s)

/-- C8: catalog construction is pure, deterministic and side-effect-free —
any two calls of `get_migrations`, from any two process states, return the
same catalog (same versions, descriptions, operations and directions in
the same order), and neither call changes the state it was given. -/
theorem get_migrations_pure {σ : Type} (s t : σ) :
    (get_migrationsCall s).1 = (get_migrationsCall t).1 ∧
      (get_migrationsCall s).2 = s ∧
      (get_migrationsCall s).1 = get_migrations :=
  ⟨rfl, rfl, rfl⟩

/-- C6: applying the full catalog to a fresh (empty) database produces the
tables `skills`, `tasks`, `timer_sessions`, `achievements`, `reflections`,
`reflection_skills`, `daily_activities` and `user_settings`; the
`user_settings` table holds exactly one row with id = 1; and `achievements`
holds exactly the 15 seeded rows already after the second unit (and still
at the end). Stated for any successful run at the modelled clock value. -/
theorem full_catalog_creates_schema (st st2 : DbState)
    (a1 a2 : List Migration) (e1 e2 : Option MigrationError)
    (h : apply (execStmts "T") get_migrations freshDb =
      ApplyResult.ran st a1 e1)
    (h2 : apply (execStmts "T") (List.take 2 get_migrations) freshDb =
      ApplyResult.ran st2 a2 e2) :
    (["skills", "tasks", "timer_sessions", "achievements", "reflections",
      "reflection_skills", "daily_activities",
      "user_settings"].all (hasTable st.db)) = true ∧
      rowCount st.db "user_settings" = 1 ∧
      singleRowIdOne st.db "user_settings" = true ∧
      rowCount st2.db "achievements" = 15 ∧
      rowCount st.db "achievements" = 15 := by
  have hst : applyStateFrom "T" get_migrations freshDb = st := by
    rw [applyStateFrom, h]
  have hst2 : applyStateFrom "T" (List.take 2 get_migrations) freshDb = st2 := by
    rw [applyStateFrom, h2]
  rw [← hst, ← hst2]
  decide

/-- Witness for C6: the concrete runs of the full catalog and of its first
two units from the fresh database. -/
theorem full_catalog_creates_schema_witness :
    (["skills", "tasks", "timer_sessions", "achievements", "reflections",
      "reflection_skills", "daily_activities",
      "user_settings"].all (hasTable (applyStateFrom "T" get_migrations freshDb).db)) = true ∧
      rowCount (applyStateFrom "T" get_migrations freshDb).db "user_settings" = 1 ∧
      singleRowIdOne (applyStateFrom "T" get_migrations freshDb).db "user_settings" = true ∧
      rowCount (applyStateFrom "T" (List.take 2 get_migrations) freshDb).db "achievements" = 15 ∧
      rowCount (applyStateFrom "T" get_migrations freshDb).db "achievements" = 15 :=
  full_catalog_creates_schema
    (applyStateFrom "T" get_migrations freshDb)
    (applyStateFrom "T" (List.take 2 get_migrations) freshDb)
    (applyTraceFrom "T" get_migrations freshDb)
    (applyTraceFrom "T" (List.take 2 get_migrations) freshDb)
    (applyErrFrom "T" get_migrations freshDb)
    (applyErrFrom "T" (List.take 2 get_migrations) freshDb)
    rfl rfl

/-- C9: the operation of catalog version 5 is a semantic no-op on the
database state reachable by applying units 1 through 4 to a fresh
database: its two UPDATE statements filter on `priority IS NULL` and
`estimated_pomodoros IS NULL`, but the `tasks` table created by unit 1
declares both columns NOT NULL with defaults, so no reachable row can
match (in the reachable state the table holds no rows at all) and the
database state is unchanged by the unit. -/
theorem migration5_noop_on_reachable (st : DbState)
    (a : List Migration) (err : Option MigrationError)
    (h : apply (execStmts "T") (List.take 4 get_migrations) freshDb =
      ApplyResult.ran st a err) :
    execStmts "T" migration5.sql st.db = some st.db := by
  have hst : applyStateFrom "T" (List.take 4 get_migrations) freshDb = st := by
    rw [applyStateFrom, h]
  rw [← hst]
  decide

/-- Witness for C9: the concrete state after units 1-4. -/
theorem migration5_noop_on_reachable_witness :
    execStmts "T" migration5.sql
        (applyStateFrom "T" (List.take 4 get_migrations) freshDb).db =
      some (applyStateFrom "T" (List.take 4 get_migrations) freshDb).db :=
  migration5_noop_on_reachable
    (applyStateFrom "T" (List.take 4 get_migrations) freshDb)
    (applyTraceFrom "T" (List.take 4 get_migrations) freshDb)
    (applyErrFrom "T" (List.take 4 get_migrations) freshDb) rfl

/-- C10: individual units are not re-runnable. On the state reached by
units 1 and 2, executing unit 2's operation again fails (the seeded
`achievements` rows collide with the id primary key and the `type` UNIQUE
constraint), and executing unit 1's single `user_settings` INSERT again
fails (the id = 1 row already exists): `apply`'s idempotence rests on the
schema version record, not on units being safe to re-execute. -/
theorem units_not_rerunnable (st2 : DbState)
    (a : List Migration) (err : Option MigrationError)
    (h : apply (execStmts "T") (List.take 2 get_migrations) freshDb =
      ApplyResult.ran st2 a err) :
    execStmts "T" migration2.sql st2.db = Option.none ∧
      execStmts "T" [userSettingsSeed] st2.db = Option.none := by
  have hst : applyStateFrom "T" (List.take 2 get_migrations) freshDb = st2 := by
    rw [applyStateFrom, h]
  rw [← hst]
  exact ⟨by decide, by decide⟩

/-- Witness for C10: the concrete state after units 1-2. -/
theorem units_not_rerunnable_witness :
    execStmts "T" migration2.sql
        (applyStateFrom "T" (List.take 2 get_migrations) freshDb).db =
      Option.none ∧
      execStmts "T" [userSettingsSeed]
          (applyStateFrom "T" (List.take 2 get_migrations) freshDb).db =
        Option.none :=
  units_not_rerunnable
    (applyStateFrom "T" (List.take 2 get_migrations) freshDb)
    (applyTraceFrom "T" (List.take 2 get_migrations) freshDb)
    (applyErrFrom "T" (List.take 2 get_migrations) freshDb) rfl

/-- Application-level inserts that populate a version-3 database: a skill,
a task for it, and one timer session (all columns explicit, satisfying the
version-3 schema including the columns added by migration 3). -/
def skillInsertApp : Stmt :=
  Stmt.insert "skills" ["id", "name"] [[Val.text "sk1", Val.text "Guitar"]]

def taskInsertApp : Stmt :=
  Stmt.insert "tasks" ["id", "skill_id", "title"]
    [[Val.text "t1", Val.text "sk1", Val.text "Practice scales"]]

def sessionInsertApp : Stmt :=
  Stmt.insert "timer_sessions"
    ["id", "task_id", "skill_id", "start_time", "duration", "type",
     "planned_duration", "session_type", "created_at"]
    [[Val.text "s1", Val.text "t1", Val.text "sk1",
      Val.text "2024-01-02 09:00:00", Val.int 25, Val.text "work",
      Val.int 30, Val.text "focus", Val.text "2024-01-02 10:00:00"]]

/-- A database at schema version 3 holding one pre-existing
`timer_sessions` row (with `created_at` = "2024-01-02 10:00:00",
`planned_duration` = 30, `session_type` = "focus"). -/
def dbAtV3 : Db :=
  (execStmts "T"
    (migration1.sql ++ migration2.sql ++ migration3.sql ++
      [skillInsertApp, taskInsertApp, sessionInsertApp]) []).getD []

/-- The database after running migration 4's copy-drop-rename rebuild on
`dbAtV3`. -/
def dbAtV4 : Db := (execStmts "T" migration4.sql dbAtV3).getD []

/-- C4 (refuted — the code corrupts `created_at`): after migration 3 the
live `timer_sessions` column order ends with
(…, created_at, planned_duration, session_type), but migration 4's
replacement table declares (…, planned_duration, session_type, created_at),
and its `INSERT INTO timer_sessions_new SELECT * FROM timer_sessions`
copies positionally. So for the pre-existing row, `id`, `skill_id` and
`duration` are preserved, but `created_at` receives the old `session_type`
value ("focus") instead of its original "2024-01-02 10:00:00" (which in
turn lands in `planned_duration`): the claim's `created_at` preservation
fails on the code. -/
theorem migration4_rebuild_corrupts_created_at :
    (execStmts "T" migration4.sql dbAtV3).isSome = true ∧
      firstRowVal dbAtV3 "timer_sessions" "created_at" =
        Val.text "2024-01-02 10:00:00" ∧
      firstRowVal dbAtV4 "timer_sessions" "id" = Val.text "s1" ∧
      firstRowVal dbAtV4 "timer_sessions" "skill_id" = Val.text "sk1" ∧
      firstRowVal dbAtV4 "timer_sessions" "duration" = Val.int 25 ∧
      firstRowVal dbAtV4 "timer_sessions" "created_at" = Val.text "focus" ∧
      firstRowVal dbAtV4 "timer_sessions" "created_at" ≠
        firstRowVal dbAtV3 "timer_sessions" "created_at" ∧
      firstRowVal dbAtV4 "timer_sessions" "planned_duration" =
        Val.text "2024-01-02 10:00:00" := by
  refine ⟨by decide, by decide, by decide, by decide, by decide, by decide,
    by decide, by decide⟩
